import Mathlib

/-!
Verification development for the Zoomer Stream Deck plugin.

The controller and detector code is embedded shallowly: each handler is a
Lean function from its inputs (process running, in meeting, external command
outcomes, detection result) to the list of observable events it performs, in
order. External effects (AppleScript execution, title and button updates,
timers) become constructors of the `Ev` type; the retry loop of
`executeToggleAction` becomes fuel-based structural recursion, with the fuel
equal to the remaining allowed attempts exactly as in the source while loop.
-/

namespace Zoomer

/-- Observable events performed by the controller, in program order.
`runningCheck` is the pgrep availability probe, `meetingCheck` the menu-bar
session probe, `execAttempt k ok` the k-th (1-based) osascript toggle attempt,
`sleep` the inter-attempt delay, `probe` a Detector state probe returning the
given string, `setBtn` a setButtonState call, `armVerify` the one-shot
setTimeout verification, and `startPeriodic` the setInterval drift check. -/
inductive Ev where
  | runningCheck (present : Bool)
  | meetingCheck (inMeeting : Bool)
  | execAttempt (k : Nat) (ok : Bool)
  | sleep (ms : Nat)
  | title (s : String)
  | probe (result : String)
  | setBtn (s : String)
  | armVerify (ms : Nat)
  | startPeriodic (ms : Nat)
  deriving DecidableEq, Repr

/-- Configuration record of ZoomToggleBase (zoom-toggle-base, lines 7-13). -/
structure ZoomToggleConfig where
  stateCheckInterval : Nat
  stateUpdateDelay : Nat
  activationDelay : Nat
  maxRetryAttempts : Nat
  retryDelay : Nat
  deriving DecidableEq, Repr

/-- The concrete configuration of ZoomToggleBase (lines 30-36). -/
def config : ZoomToggleConfig :=
  { stateCheckInterval := 1000
    stateUpdateDelay := 1000
    activationDelay := 100
    maxRetryAttempts := 3
    retryDelay := 200 }

/-- Retry loop of ZoomToggleBase.executeToggleAction (lines 99-128), embedded
with fuel equal to the remaining permitted attempts: `a` is the 0-based index
of the next attempt (the source variable `attempt` at loop entry), and
`outcomes a` is the result of the a-th osascript execution.  On failure the
source increments `attempt`, rethrows when it reaches `maxRetryAttempts`, and
otherwise sleeps `retryDelay * attempt` before the next iteration. -/
def execLoop (outcomes : Nat → Except String Unit) (retryDelay : Nat) :
    Nat → Nat → List Ev × Except String Unit
  | 0, _ => ([], Except.ok ())
  | r + 1, a =>
    match outcomes a with
    | Except.ok _ => ([Ev.execAttempt (a + 1) true], Except.ok ())
    | Except.error e =>
      if r = 0 then
        ([Ev.execAttempt (a + 1) false], Except.error e)
      else
        let rest := execLoop outcomes retryDelay r (a + 1)
        (Ev.execAttempt (a + 1) false :: Ev.sleep (retryDelay * (a + 1)) :: rest.1,
         rest.2)

/-- ZoomToggleBase.executeToggleAction (lines 99-128): run the retry loop from
attempt index 0 with `maxRetryAttempts` attempts allowed; returns the event
trace and either success or the error of the last attempt. -/
def executeToggleAction (outcomes : Nat → Except String Unit)
    (maxRetryAttempts retryDelay : Nat) : List Ev × Except String Unit :=
  execLoop outcomes retryDelay maxRetryAttempts 0

/-- ZoomToggleBase.onKeyDown (lines 65-94).  Inputs: whether the zoom process
is running, and the per-attempt outcomes of the external toggle command.  When
not running it sets the fixed unavailable title and returns; otherwise it runs
executeToggleAction and, on success, arms the one-shot state-update timer; a
thrown error is caught and displayed as the Error title. -/
def onKeyDownBase (running : Bool) (outcomes : Nat → Except String Unit)
    (cfg : ZoomToggleConfig) : List Ev :=
  if running = false then
    [Ev.runningCheck false, Ev.title "Zoom\nNot Running"]
  else
    let t := executeToggleAction outcomes cfg.maxRetryAttempts cfg.retryDelay
    Ev.runningCheck true ::
      (t.1 ++
        match t.2 with
        | Except.ok _ => [Ev.armVerify cfg.stateUpdateDelay]
        | Except.error _ => [Ev.title "Error"])

/-- ZoomToggleBase.onKeyDown with the guard flag made explicit: the method
body (lines 65-94) never reads `this.isUpdating`, so the handler behaves
identically whether or not the guard is held; the parameter records the state
of the guard at entry. -/
def onKeyDownBaseG (isUpdating : Bool) (running : Bool)
    (outcomes : Nat → Except String Unit) (cfg : ZoomToggleConfig) : List Ev :=
  onKeyDownBase running outcomes cfg

/-- ZoomToggleBase.updateState (lines 288-319).  Returns early when the
`isUpdating` guard is held; otherwise checks running, then meeting, then runs
the Detector probe, and only a result other than "unknown" changes the button
state (and clears the title). -/
def updateStateBase (isUpdating running inMeeting : Bool) (detected : String) :
    List Ev :=
  if isUpdating then []
  else if running = false then
    [Ev.runningCheck false, Ev.title "Zoom\nNot Running"]
  else if inMeeting = false then
    [Ev.runningCheck true, Ev.meetingCheck false, Ev.title "Not in\nMeeting"]
  else
    Ev.runningCheck true :: Ev.meetingCheck true :: Ev.probe detected ::
      (if detected = "unknown" then [] else [Ev.setBtn detected, Ev.title ""])

/-- ZoomToggleBase.onWillAppear (lines 50-53): one updateState cycle followed
unconditionally by startPeriodicStateCheck. -/
def onWillAppearBase (isUpdating running inMeeting : Bool) (detected : String) :
    List Ev :=
  updateStateBase isUpdating running inMeeting detected ++
    [Ev.startPeriodic config.stateCheckInterval]

/-- One callback firing of the interval armed by startPeriodicStateCheck
(lines 327-335): it re-checks running and meeting (short-circuit and) and only
then calls updateState, which itself applies the isUpdating guard. -/
def periodicTickBase (isUpdating running inMeeting : Bool) (detected : String) :
    List Ev :=
  Ev.runningCheck running ::
    (if running then
      Ev.meetingCheck inMeeting ::
        (if inMeeting then updateStateBase isUpdating running inMeeting detected
         else [])
     else [])

/-- Displayed button surface: current title and the last state passed to
setButtonState (`none` when never set since the point of observation). -/
structure Display where
  title : String
  btn : Option String
  deriving DecidableEq, Repr

/-- Effect of one event on the display; non-display events are identity. -/
def applyEv (d : Display) : Ev → Display
  | Ev.title s => { d with title := s }
  | Ev.setBtn s => { d with btn := some s }
  | _ => d

/-- Replay a trace of events over a starting display. -/
def runDisplay (d : Display) (tr : List Ev) : Display :=
  tr.foldl applyEv d

/-- True of the osascript toggle attempts among the events. -/
def isExecEv : Ev → Bool
  | Ev.execAttempt _ _ => true
  | _ => false

/-- True of Detector probes among the events. -/
def isProbeEv : Ev → Bool
  | Ev.probe _ => true
  | _ => false

/-- True of setButtonState calls among the events. -/
def isSetBtnEv : Ev → Bool
  | Ev.setBtn _ => true
  | _ => false

/-- Number of external toggle attempts in a trace. -/
def numExecAttempts (tr : List Ev) : Nat :=
  (tr.filter isExecEv).length

/-- Number of Detector probes in a trace. -/
def numProbes (tr : List Ev) : Nat :=
  (tr.filter isProbeEv).length

/-- The inter-attempt delays of a trace, in order. -/
def sleepsOf (tr : List Ev) : List Nat :=
  tr.filterMap fun e =>
    match e with
    | Ev.sleep ms => some ms
    | _ => none

/-- Whether a one-shot verification timer is armed somewhere in the trace. -/
def hasArmVerify (tr : List Ev) : Bool :=
  tr.any fun e =>
    match e with
    | Ev.armVerify _ => true
    | _ => false

/-- Whether the periodic drift-check timer is started in the trace. -/
def hasStartPeriodic (tr : List Ev) : Bool :=
  tr.any fun e =>
    match e with
    | Ev.startPeriodic _ => true
    | _ => false

/-- Whether some setButtonState call occurs strictly before the first external
toggle attempt of the trace. -/
def flipBeforeExec (tr : List Ev) : Bool :=
  (tr.takeWhile fun e => !(isExecEv e)).any isSetBtnEv

/-- Video state union of zoom-video-toggle: the type of `lastKnownState` and
of detectZoomVideoState results. -/
inductive VState where
  | video_on
  | video_off
  | unknown
  deriving DecidableEq, Repr

/-- String form of a video state, as used by the source string literals. -/
def VState.toStr : VState → String
  | VState.video_on => "video_on"
  | VState.video_off => "video_off"
  | VState.unknown => "unknown"

/-- The optimistic target computed by ZoomVideoToggle.onKeyDown line 81:
`lastKnownState === video_on ? video_off : video_on` (an unknown last state
maps to video_on). -/
def videoOpposite (s : VState) : VState :=
  if s = VState.video_on then VState.video_off else VState.video_on

/-- ZoomVideoToggle.onKeyDown (zoom-video-toggle, lines 33-94).  Inputs: the
running check result, whether the synchronous execSync toggle succeeds, and
the current `lastKnownState`.  Returns the event trace and the new
`lastKnownState`.  On success the optimistic flip and the 800ms verification
timer follow the external call; on failure the catch block sets the Error
title and `lastKnownState` is untouched. -/
def videoOnKeyDown (running : Bool) (execOk : Bool) (lastKnown : VState) :
    List Ev × VState :=
  if running = false then
    ([Ev.runningCheck false, Ev.title "Zoom\nNot Running"], lastKnown)
  else if execOk then
    let newState := videoOpposite lastKnown
    ([Ev.runningCheck true, Ev.execAttempt 1 true, Ev.setBtn newState.toStr,
      Ev.armVerify 800], newState)
  else
    ([Ev.runningCheck true, Ev.execAttempt 1 false, Ev.title "Error"], lastKnown)

/-- ZoomVideoToggle.updateState (lines 192-225).  Returns the event trace and
the new `lastKnownState`: an unavailable process or absent meeting resets the
last known state to unknown; a non-unknown detection is displayed and becomes
the confirmed state; an unknown detection keeps the last known state and only
sets the informational meeting title. -/
def videoUpdateState (running inMeeting : Bool) (detected : VState)
    (lastKnown : VState) : List Ev × VState :=
  if running = false then
    ([Ev.runningCheck false, Ev.title "Zoom\nNot Running"], VState.unknown)
  else if inMeeting = false then
    ([Ev.runningCheck true, Ev.meetingCheck false, Ev.title "Not in\nMeeting"],
     VState.unknown)
  else if detected = VState.unknown then
    ([Ev.runningCheck true, Ev.meetingCheck true, Ev.probe detected.toStr,
      Ev.title "Zoom\nMeeting"], lastKnown)
  else
    ([Ev.runningCheck true, Ev.meetingCheck true, Ev.probe detected.toStr,
      Ev.setBtn detected.toStr], detected)

/-- Mute state union of ZoomMonitor.detectZoomMuteState results. -/
inductive MuteState where
  | muted
  | unmuted
  | unknown
  deriving DecidableEq, Repr

/-- Confidence levels attached by ZoomMonitor.getAudioState and
getVideoState. -/
inductive Confidence where
  | high
  | low
  deriving DecidableEq, Repr

/-- ZoomMonitor.detectZoomMuteState (zoom-monitor, lines 51-95), as a function
of the outcome of the single osascript probe: a spawn failure or non-zero exit
is the `Except.error` case (absorbed by the catch block), and any stdout other
than the two recognized states (including "no_meeting", "unknown" and
"error: ..." strings) resolves to unknown.  The function is total: no input
maps to a raised exception. -/
def detectZoomMuteState : Except String String → MuteState
  | Except.error _ => MuteState.unknown
  | Except.ok r =>
    if r = "muted" then MuteState.muted
    else if r = "unmuted" then MuteState.unmuted
    else MuteState.unknown

/-- ZoomMonitor.detectZoomVideoState (lines 100-144), same shape as the mute
detector with the video button descriptions. -/
def detectZoomVideoState : Except String String → VState
  | Except.error _ => VState.unknown
  | Except.ok r =>
    if r = "video_on" then VState.video_on
    else if r = "video_off" then VState.video_off
    else VState.unknown

/-- ZoomMonitor.getAudioState (lines 149-159): wraps the mute detection with a
confidence level, high exactly when the state is not unknown.  The class holds
no other per-call or cross-call state: the result depends only on the current
probe outcome. -/
def getAudioState (o : Except String String) : MuteState × Confidence :=
  let zoomState := detectZoomMuteState o
  (zoomState,
   if zoomState = MuteState.unknown then Confidence.low else Confidence.high)

/-- ZoomMonitor.getVideoState (lines 164-174). -/
def getVideoState (o : Except String String) : VState × Confidence :=
  let zoomState := detectZoomVideoState o
  (zoomState,
   if zoomState = VState.unknown then Confidence.low else Confidence.high)

/-- Embedding of the JavaScript toLowerCase builtin as applied to shortcut
strings: lowercase every character, structurally over the character list so
that concrete shortcuts evaluate inside the kernel.  The Char.toLower used
here lowercases the ASCII letters, which covers every recognized modifier
and property name the lookup distinguishes. -/
def jsToLower (s : String) : String :=
  String.mk (s.data.map Char.toLower)

/-- Worker for the JavaScript split builtin with a one-character separator:
accumulate the current segment in reverse and emit it at each separator and
at the end, so that split never returns an empty list and keeps empty
segments, exactly as in JavaScript. -/
def splitCharAux (sep : Char) : List Char → List Char → List String
  | [], acc => [String.mk acc.reverse]
  | c :: cs, acc =>
    if c = sep then String.mk acc.reverse :: splitCharAux sep cs []
    else splitCharAux sep cs (c :: acc)

/-- Embedding of the JavaScript split builtin with a one-character separator,
as used by generateKeystrokeScript on the plus sign. -/
def jsSplit (sep : Char) (s : String) : List String :=
  splitCharAux sep s.data []

/-- String forms, as produced by the JavaScript engine, of the two values the
modifier lookup can inherit from Object.prototype: `constructorStr` is the
stringification of the inherited Object constructor function reached by the
segment constructor, and `protoStr` is the stringification of
Object.prototype itself, reached through the inherited accessor by the
segment proto with double underscores.  The underlying values are objects and
therefore truthy independently of their string forms. -/
structure ProtoStrings where
  constructorStr : String
  protoStr : String
  deriving DecidableEq, Repr

/-- The string forms produced by Node (V8), shared by the other major
engines: String of the Object constructor and String of Object.prototype. -/
def nodeProtoStrings : ProtoStrings :=
  { constructorStr := "function Object() \x7b [native code] \x7d"
    protoStr := "[object Object]" }

/-- The modifier lookup of generateKeystrokeScript (zoom-toggle-base lines
138-151 and zoom-video-toggle lines 105-119, identical bodies).  The source
looks each lowercased segment up in a plain object literal, so the lookup
traverses the prototype chain: besides the eight own keys, the two
all-lowercase property names of Object.prototype (constructor, and proto
with double underscores) resolve to inherited truthy object values; only
all-lowercase names can reach the lookup because the shortcut was lowercased
first, so the mixed-case Object.prototype names are unreachable and every
other segment resolves to undefined.  The truthiness filter of the source
drops exactly the undefined results: every own value is a non-empty string
and the two inherited values are objects, all truthy, so the model fuses the
lookup with the string coercion the join applies, returning the coerced
string of a defined lookup and none for undefined. -/
def modifierMap (ps : ProtoStrings) : String → Option String
  | "cmd" => some "command down"
  | "command" => some "command down"
  | "shift" => some "shift down"
  | "opt" => some "option down"
  | "option" => some "option down"
  | "alt" => some "option down"
  | "ctrl" => some "control down"
  | "control" => some "control down"
  | "constructor" => some ps.constructorStr
  | "__proto__" => some ps.protoStr
  | _ => none

/-- generateKeystrokeScript (zoom-toggle-base lines 133-159, and the identical
copies in zoom-video-toggle and zoom-mute-toggle): lowercase the shortcut,
split on "+", take the last segment as the key and the rest as modifiers, map
each through the object lookup and keep the truthy results, join with ", ",
and emit the using clause exactly when the joined modifier string is
non-empty (the truthiness test of the source).  Parameterized by the engine
string forms of the two inherited lookup results. -/
def generateKeystrokeScript (ps : ProtoStrings) (shortcut : String) : String :=
  let parts := jsSplit '+' (jsToLower shortcut)
  let key := parts.getLastD ""
  let modifiers := parts.dropLast
  let appleScriptModifiers :=
    String.intercalate ", " (modifiers.filterMap (modifierMap ps))
  if appleScriptModifiers = "" then
    "keystroke \"" ++ key ++ "\""
  else
    "keystroke \"" ++ key ++ "\" using \x7b" ++ appleScriptModifiers ++ "\x7d"

/-- The recognized-modifier table in the words of claim C10: cmd and command,
shift, opt and option and alt, ctrl and control map to their AppleScript
forms; every other segment is unrecognized. -/
def recognizedModifier : String → Option String
  | "cmd" => some "command down"
  | "command" => some "command down"
  | "shift" => some "shift down"
  | "opt" => some "option down"
  | "option" => some "option down"
  | "alt" => some "option down"
  | "ctrl" => some "control down"
  | "control" => some "control down"
  | _ => none

/-- Restatement of claim C10 as stated: the command is keystroke of the
lowercased segment after the last plus sign; when at least one preceding
segment maps to a recognized modifier the command carries a using clause
listing the mapped modifiers in input order with unrecognized segments
silently dropped, and when no segment maps (including a bare key) there is
no using clause. -/
def keystrokeSpec (shortcut : String) : String :=
  let segments := jsSplit '+' (jsToLower shortcut)
  let key := segments.getLastD ""
  let mapped := segments.dropLast.filterMap recognizedModifier
  if mapped = [] then
    "keystroke \"" ++ key ++ "\""
  else
    "keystroke \"" ++ key ++ "\" using \x7b" ++
      String.intercalate ", " mapped ++ "\x7d"

/-- Restatement of claim C10 as amended: a preceding segment contributes to
the using clause when the object lookup defines it, that is when it is a
recognized modifier (contributing its AppleScript form) or one of the two
all-lowercase Object.prototype property names (contributing the engine
string form of the inherited value); contributions appear in input order,
every other segment is dropped, and the using clause is present exactly when
the contribution list is non-empty, where the source branches on the joined
string instead. -/
def keystrokeSpecAmended (ps : ProtoStrings) (shortcut : String) : String :=
  let segments := jsSplit '+' (jsToLower shortcut)
  let key := segments.getLastD ""
  let mapped := segments.dropLast.filterMap (modifierMap ps)
  if mapped = [] then
    "keystroke \"" ++ key ++ "\""
  else
    "keystroke \"" ++ key ++ "\" using \x7b" ++
      String.intercalate ", " mapped ++ "\x7d"

/-- Every string produced by the lookup is non-empty, provided the engine
string forms of the two inherited values are non-empty. -/
lemma modifierMap_ne_empty (ps : ProtoStrings) (hc : ps.constructorStr ≠ "")
    (hp : ps.protoStr ≠ "") (m x : String) (h : modifierMap ps m = some x) :
    x ≠ "" := by
  unfold modifierMap at h
  split at h <;> first
  | (injection h with h; subst h; first | decide | exact hc | exact hp)
  | simp_all

/-- A non-empty string has positive length. -/
lemma string_pos_of_ne_empty (x : String) (h : x ≠ "") : 0 < x.length := by
  obtain ⟨xd⟩ := x
  have hd : xd ≠ [] := by
    intro he
    exact h (by simp [he])
  simpa [String.length] using List.length_pos.mpr hd

/-- The go loop of String.intercalate only extends its accumulator. -/
lemma intercalate_go_len (s : String) (l : List String) (acc : String) :
    acc.length ≤ (String.intercalate.go acc s l).length := by
  induction l generalizing acc with
  | nil => simp [String.intercalate.go]
  | cons a as ih =>
    calc acc.length ≤ (acc ++ s ++ a).length := by
          simp [String.length_append]; omega
    _ ≤ (String.intercalate.go (acc ++ s ++ a) s as).length := ih _
    _ = (String.intercalate.go acc s (a :: as)).length := by
        rw [String.intercalate.go]

/-- Joining a list headed by a non-empty string is non-empty: this bridges the
truthiness test of the source to the list-emptiness test of the spec. -/
lemma intercalate_cons_ne_empty (s x : String) (xs : List String)
    (hx : x ≠ "") : String.intercalate s (x :: xs) ≠ "" := by
  intro he
  have h1 : x.length ≤ (String.intercalate s (x :: xs)).length := by
    rw [String.intercalate]
    exact intercalate_go_len s xs x
  rw [he] at h1
  have h0 : ("" : String).length = 0 := rfl
  have := string_pos_of_ne_empty x hx
  omega

/-- Claim C1: with maxAttempts 3 and base delay 200ms, when the external
toggle command fails on attempts 1 and 2 and succeeds on attempt 3, the
executor makes exactly three attempts, sleeps 200ms before attempt 2 and
400ms before attempt 3 (linear backoff, delay before attempt k is
baseDelay times k minus 1), makes no further attempt after the success, and
the activation completes successfully: the key handler arms the state-update
timer and leaves the title untouched. -/
theorem retry_bound_three_attempts_linear_backoff
    (outcomes : Nat → Except String Unit) (e1 e2 : String) (d : Display)
    (h0 : outcomes 0 = Except.error e1) (h1 : outcomes 1 = Except.error e2)
    (h2 : outcomes 2 = Except.ok ()) :
    executeToggleAction outcomes config.maxRetryAttempts config.retryDelay =
      ([Ev.execAttempt 1 false, Ev.sleep 200, Ev.execAttempt 2 false,
        Ev.sleep 400, Ev.execAttempt 3 true], Except.ok ())
    ∧ onKeyDownBase true outcomes config =
        [Ev.runningCheck true, Ev.execAttempt 1 false, Ev.sleep 200,
         Ev.execAttempt 2 false, Ev.sleep 400, Ev.execAttempt 3 true,
         Ev.armVerify 1000]
    ∧ (runDisplay d (onKeyDownBase true outcomes config)).title = d.title := by
  simp [onKeyDownBase, executeToggleAction, config, execLoop, h0, h1, h2,
    runDisplay, applyEv]

/-- Witness for claim C1 at the concrete outcome sequence fail, fail,
succeed. -/
theorem retry_bound_three_attempts_linear_backoff_witness :
    executeToggleAction (fun n => if n < 2 then Except.error "boom"
      else Except.ok ()) config.maxRetryAttempts config.retryDelay =
      ([Ev.execAttempt 1 false, Ev.sleep 200, Ev.execAttempt 2 false,
        Ev.sleep 400, Ev.execAttempt 3 true], Except.ok ())
    ∧ onKeyDownBase true (fun n => if n < 2 then Except.error "boom"
        else Except.ok ()) config =
        [Ev.runningCheck true, Ev.execAttempt 1 false, Ev.sleep 200,
         Ev.execAttempt 2 false, Ev.sleep 400, Ev.execAttempt 3 true,
         Ev.armVerify 1000]
    ∧ (runDisplay ⟨"", none⟩ (onKeyDownBase true (fun n => if n < 2 then
        Except.error "boom" else Except.ok ()) config)).title =
        (Display.mk "" none).title :=
  retry_bound_three_attempts_linear_backoff
    (fun n => if n < 2 then Except.error "boom" else Except.ok ())
    "boom" "boom" ⟨"", none⟩ rfl rfl rfl

/-- Claim C2: when the external toggle command fails on all three attempts,
the executor propagates the error of the last attempt, the key handler
displays the Error title, the button state is untouched (so the pre-toggle
confirmed state remains displayed), and no verification timer is armed for
that activation. -/
theorem exhaustion_error_no_verification
    (outcomes : Nat → Except String Unit) (e0 e1 e2 : String) (d : Display)
    (h0 : outcomes 0 = Except.error e0) (h1 : outcomes 1 = Except.error e1)
    (h2 : outcomes 2 = Except.error e2) :
    (executeToggleAction outcomes config.maxRetryAttempts config.retryDelay).2
      = Except.error e2
    ∧ (runDisplay d (onKeyDownBase true outcomes config)).title = "Error"
    ∧ (runDisplay d (onKeyDownBase true outcomes config)).btn = d.btn
    ∧ hasArmVerify (onKeyDownBase true outcomes config) = false := by
  simp [executeToggleAction, config, execLoop, h0, h1, h2, onKeyDownBase,
    runDisplay, applyEv, hasArmVerify]

/-- Witness for claim C2 at an always-failing outcome sequence. -/
theorem exhaustion_error_no_verification_witness :
    (executeToggleAction (fun _ => Except.error "boom")
        config.maxRetryAttempts config.retryDelay).2 = Except.error "boom"
    ∧ (runDisplay ⟨"", none⟩ (onKeyDownBase true (fun _ => Except.error "boom")
        config)).title = "Error"
    ∧ (runDisplay ⟨"", none⟩ (onKeyDownBase true (fun _ => Except.error "boom")
        config)).btn = (Display.mk "" none).btn
    ∧ hasArmVerify (onKeyDownBase true (fun _ => Except.error "boom") config)
        = false :=
  exhaustion_error_no_verification (fun _ => Except.error "boom")
    "boom" "boom" "boom" ⟨"", none⟩ rfl rfl rfl

/-- Claim C3 counterexample: in the legacy video key handler with the process
running and the external call succeeding, no setButtonState call occurs
before the external toggle call: the optimistic flip is not visible before
the external call returns, refuting the claim as stated. -/
theorem optimistic_flip_not_before_external_call :
    flipBeforeExec (videoOnKeyDown true true VState.video_on).1 = false := by
  decide

/-- Claim C3 as amended: on an activation with the resource available, the
displayed state is flipped to the logical opposite of the last confirmed
state immediately AFTER the external toggle call succeeds (not before it
returns); the displayed state then equals that optimistic target, the target
is recorded as the last known state, and after the verification delay elapses
the display equals the next non-Unknown detector result, which becomes the
confirmed state.  The base-class key handler performs no immediate flip at
all: on success it only arms the delayed state-update timer and leaves the
button untouched. -/
theorem optimistic_flip_after_success_then_reconcile
    (lastKnown detected : VState) (d : Display)
    (outcomes : Nat → Except String Unit)
    (hd : detected ≠ VState.unknown) (h0 : outcomes 0 = Except.ok ()) :
    (videoOnKeyDown true true lastKnown).1 =
      [Ev.runningCheck true, Ev.execAttempt 1 true,
       Ev.setBtn (videoOpposite lastKnown).toStr, Ev.armVerify 800]
    ∧ (runDisplay d (videoOnKeyDown true true lastKnown).1).btn =
        some (videoOpposite lastKnown).toStr
    ∧ (videoOnKeyDown true true lastKnown).2 = videoOpposite lastKnown
    ∧ (runDisplay (runDisplay d (videoOnKeyDown true true lastKnown).1)
        (videoUpdateState true true detected (videoOpposite lastKnown)).1).btn
        = some detected.toStr
    ∧ (videoUpdateState true true detected (videoOpposite lastKnown)).2 =
        detected
    ∧ onKeyDownBase true outcomes config =
        [Ev.runningCheck true, Ev.execAttempt 1 true, Ev.armVerify 1000]
    ∧ (runDisplay d (onKeyDownBase true outcomes config)).btn = d.btn := by
  cases detected <;> cases lastKnown <;>
    simp_all [videoOnKeyDown, videoUpdateState, videoOpposite, runDisplay,
      applyEv, VState.toStr, onKeyDownBase, executeToggleAction, config,
      execLoop]

/-- Witness for amended claim C3 with last confirmed state video_on and a
video_off detection at verification. -/
theorem optimistic_flip_after_success_then_reconcile_witness :
    (videoOnKeyDown true true VState.video_on).1 =
      [Ev.runningCheck true, Ev.execAttempt 1 true,
       Ev.setBtn (videoOpposite VState.video_on).toStr, Ev.armVerify 800]
    ∧ (runDisplay ⟨"", none⟩ (videoOnKeyDown true true VState.video_on).1).btn
        = some (videoOpposite VState.video_on).toStr
    ∧ (videoOnKeyDown true true VState.video_on).2 =
        videoOpposite VState.video_on
    ∧ (runDisplay (runDisplay ⟨"", none⟩
          (videoOnKeyDown true true VState.video_on).1)
        (videoUpdateState true true VState.video_off
          (videoOpposite VState.video_on)).1).btn =
        some VState.video_off.toStr
    ∧ (videoUpdateState true true VState.video_off
        (videoOpposite VState.video_on)).2 = VState.video_off
    ∧ onKeyDownBase true (fun _ => Except.ok ()) config =
        [Ev.runningCheck true, Ev.execAttempt 1 true, Ev.armVerify 1000]
    ∧ (runDisplay ⟨"", none⟩ (onKeyDownBase true (fun _ => Except.ok ())
        config)).btn = (Display.mk "" none).btn :=
  optimistic_flip_after_success_then_reconcile VState.video_on
    VState.video_off ⟨"", none⟩ (fun _ => Except.ok ()) (by decide) rfl

/-- Claim C4: when the availability check reports the zoom process absent,
both the key handler and the state-update cycle perform zero Detector probes
and zero Executor attempts, and set the fixed unavailable title. -/
theorem absent_process_fail_open (outcomes : Nat → Except String Unit)
    (inMeeting : Bool) (detected : String) (d : Display) :
    numProbes (onKeyDownBase false outcomes config) = 0
    ∧ numExecAttempts (onKeyDownBase false outcomes config) = 0
    ∧ (runDisplay d (onKeyDownBase false outcomes config)).title =
        "Zoom\nNot Running"
    ∧ numProbes (updateStateBase false false inMeeting detected) = 0
    ∧ numExecAttempts (updateStateBase false false inMeeting detected) = 0
    ∧ (runDisplay d (updateStateBase false false inMeeting detected)).title =
        "Zoom\nNot Running" := by
  simp [onKeyDownBase, updateStateBase, numProbes, numExecAttempts,
    runDisplay, applyEv, isProbeEv, isExecEv]

/-- Claim C5 counterexample: when the action appears while the zoom process
is absent, the periodic drift-check timer IS started (onWillAppear calls
startPeriodicStateCheck unconditionally), refuting the claim that it is not
started. -/
theorem periodic_check_started_when_unavailable :
    hasStartPeriodic (onWillAppearBase false false true "unknown") = true := by
  decide

/-- Claim C5 as amended: when the controller appears and the availability
check reports the resource unavailable, it displays the fixed unavailable
indicator but still starts the periodic drift-check timer, which
onWillAppear starts unconditionally; the timer callback itself skips work
while the resource stays absent. -/
theorem unavailable_appear_shows_indicator_still_starts_periodic
    (inMeeting : Bool) (detected : String) (d : Display) :
    (runDisplay d (onWillAppearBase false false inMeeting detected)).title =
      "Zoom\nNot Running"
    ∧ hasStartPeriodic (onWillAppearBase false false inMeeting detected) =
        true := by
  simp [onWillAppearBase, updateStateBase, runDisplay, applyEv,
    hasStartPeriodic]

/-- Claim C6 counterexample: an activation arriving while the isUpdating
guard is held is NOT ignored: the key handler never reads the guard and
still performs an external toggle attempt, refuting the claim that it is
ignored entirely. -/
theorem activation_not_ignored_while_guard_held :
    ¬ (numExecAttempts
        (onKeyDownBaseG true true (fun _ => Except.ok ()) config) = 0) := by
  decide

/-- Claim C6 as amended: the isUpdating guard serializes state-update cycles
only: a periodic tick or a state-update cycle arriving while the guard is
held performs zero Detector probes and zero Executor attempts, but an
activation is never ignored because of the guard: the key handler does not
consult it and always performs at least one external toggle attempt when the
process is running. -/
theorem guard_serializes_update_cycles_only (running inMeeting : Bool)
    (detected : String) (outcomes : Nat → Except String Unit) :
    numProbes (periodicTickBase true running inMeeting detected) = 0
    ∧ numExecAttempts (periodicTickBase true running inMeeting detected) = 0
    ∧ numProbes (updateStateBase true running inMeeting detected) = 0
    ∧ numExecAttempts (onKeyDownBaseG true true outcomes config) ≠ 0 := by
  refine ⟨?_, ?_, ?_, ?_⟩
  · cases running <;> cases inMeeting <;>
      simp [periodicTickBase, updateStateBase, numProbes, isProbeEv]
  · cases running <;> cases inMeeting <;>
      simp [periodicTickBase, updateStateBase, numExecAttempts, isExecEv]
  · simp [updateStateBase, numProbes]
  · cases h0 : outcomes 0 with
    | ok u =>
      cases u
      simp [onKeyDownBaseG, onKeyDownBase, executeToggleAction, config,
        execLoop, h0, numExecAttempts, isExecEv]
    | error e =>
      cases h1 : outcomes 1 with
      | ok u =>
        cases u
        simp [onKeyDownBaseG, onKeyDownBase, executeToggleAction, config,
          execLoop, h0, h1, numExecAttempts, isExecEv]
      | error e1 =>
        cases h2 : outcomes 2 with
        | ok u =>
          cases u
          simp [onKeyDownBaseG, onKeyDownBase, executeToggleAction, config,
            execLoop, h0, h1, h2, numExecAttempts, isExecEv]
        | error e2 =>
          simp [onKeyDownBaseG, onKeyDownBase, executeToggleAction, config,
            execLoop, h0, h1, h2, numExecAttempts, isExecEv]

/-- Claim C7: a state-update cycle in which the detector returns unknown
leaves the displayed button state unchanged in both controllers, changes
nothing at all in the base-class cycle (trace is check, check, probe only),
and does not record unknown as the newly confirmed last known state in the
legacy video controller. -/
theorem unknown_detection_preserves_display
    (isUpdating running inMeeting : Bool) (lastKnown : VState) (d : Display) :
    (runDisplay d (updateStateBase isUpdating running inMeeting "unknown")).btn
      = d.btn
    ∧ updateStateBase false true true "unknown" =
        [Ev.runningCheck true, Ev.meetingCheck true, Ev.probe "unknown"]
    ∧ (runDisplay d (videoUpdateState running inMeeting VState.unknown
        lastKnown).1).btn = d.btn
    ∧ (videoUpdateState true true VState.unknown lastKnown).2 = lastKnown := by
  refine ⟨?_, by simp [updateStateBase], ?_, by simp [videoUpdateState]⟩
  · cases isUpdating <;> cases running <;> cases inMeeting <;>
      simp [updateStateBase, runDisplay, applyEv]
  · cases running <;> cases inMeeting <;>
      simp [videoUpdateState, runDisplay, applyEv, VState.toStr]

/-- Claim C8: the detectors are total functions of the probe outcome: a
failed osascript execution (the error case, absorbed by the catch block) and
any unrecognized stdout, including no_meeting and error strings, resolve to
the unknown state, which the state wrappers pair with low confidence. -/
theorem detector_absorbs_all_failures (e s sv : String)
    (hs1 : s ≠ "muted") (hs2 : s ≠ "unmuted")
    (hv1 : sv ≠ "video_on") (hv2 : sv ≠ "video_off") :
    detectZoomMuteState (Except.error e) = MuteState.unknown
    ∧ detectZoomMuteState (Except.ok s) = MuteState.unknown
    ∧ detectZoomVideoState (Except.error e) = VState.unknown
    ∧ detectZoomVideoState (Except.ok sv) = VState.unknown
    ∧ getAudioState (Except.error e) = (MuteState.unknown, Confidence.low)
    ∧ getAudioState (Except.ok s) = (MuteState.unknown, Confidence.low)
    ∧ getVideoState (Except.ok sv) = (VState.unknown, Confidence.low) := by
  simp [detectZoomMuteState, detectZoomVideoState, getAudioState,
    getVideoState, hs1, hs2, hv1, hv2]

/-- Witness for claim C8 at a spawn failure, the no_meeting output and an
AppleScript error string. -/
theorem detector_absorbs_all_failures_witness :
    detectZoomMuteState (Except.error "spawn failed") = MuteState.unknown
    ∧ detectZoomMuteState (Except.ok "no_meeting") = MuteState.unknown
    ∧ detectZoomVideoState (Except.error "spawn failed") = VState.unknown
    ∧ detectZoomVideoState (Except.ok "error: x") = VState.unknown
    ∧ getAudioState (Except.error "spawn failed") =
        (MuteState.unknown, Confidence.low)
    ∧ getAudioState (Except.ok "no_meeting") =
        (MuteState.unknown, Confidence.low)
    ∧ getVideoState (Except.ok "error: x") =
        (VState.unknown, Confidence.low) :=
  detector_absorbs_all_failures "spawn failed" "no_meeting" "error: x"
    (by decide) (by decide) (by decide) (by decide)

/-- Claim C9 counterexample: when the single probe strategy yields unknown,
getAudioState returns the unknown state with low confidence, not a
previously confirmed state: ZoomMonitor holds no last-result cache and its
result depends only on the current probe outcome, refuting the claim that a
cached previous state is returned rather than Unknown. -/
theorem all_unknown_probe_returns_unknown :
    getAudioState (Except.ok "unknown") =
      (MuteState.unknown, Confidence.low) := by
  decide

/-- Claim C9 as amended: when every probe strategy yields unknown, the
detector returns unknown with low confidence; it holds no last-result cache.
Keeping the previously displayed state is done by the controller, whose
update cycle leaves the button unchanged on an unknown detection. -/
theorem all_unknown_probe_low_confidence_stateless (s e : String)
    (hs1 : s ≠ "muted") (hs2 : s ≠ "unmuted") (d : Display) :
    getAudioState (Except.ok s) = (MuteState.unknown, Confidence.low)
    ∧ getAudioState (Except.error e) = (MuteState.unknown, Confidence.low)
    ∧ (runDisplay d (updateStateBase false true true "unknown")).btn =
        d.btn := by
  simp [getAudioState, detectZoomMuteState, hs1, hs2, updateStateBase,
    runDisplay, applyEv]

/-- Witness for amended claim C9 at the unknown probe output. -/
theorem all_unknown_probe_low_confidence_stateless_witness :
    getAudioState (Except.ok "unknown") = (MuteState.unknown, Confidence.low)
    ∧ getAudioState (Except.error "boom") =
        (MuteState.unknown, Confidence.low)
    ∧ (runDisplay ⟨"", none⟩ (updateStateBase false true true "unknown")).btn
        = (Display.mk "" none).btn :=
  all_unknown_probe_low_confidence_stateless "unknown" "boom"
    (by decide) (by decide) ⟨"", none⟩

/-- Claim C10 counterexample: the shortcut with the single preceding segment
constructor has no segment mapping to a recognized modifier, so the claim as
stated requires the plain command with no using clause; but the object
lookup of the source inherits the Object constructor from Object.prototype,
the truthy inherited value survives the filter, and the program emits a
using clause containing its string form, refuting the claim at this input. -/
theorem keystroke_inherited_segment_not_dropped :
    generateKeystrokeScript nodeProtoStrings "constructor+a" =
      "keystroke \"a\" using \x7bfunction Object() \x7b [native code] \x7d\x7d"
    ∧ keystrokeSpec "constructor+a" = "keystroke \"a\""
    ∧ generateKeystrokeScript nodeProtoStrings "constructor+a" ≠
        keystrokeSpec "constructor+a" := by
  refine ⟨rfl, rfl, ?_⟩
  decide

/-- Claim C10 as amended: for every shortcut string and every engine whose
string forms of the two inherited values are non-empty,
generateKeystrokeScript returns keystroke of the lowercased segment after
the last plus sign; a preceding segment contributes to the using clause when
the object lookup defines it, namely when it is a recognized modifier or one
of the two all-lowercase Object.prototype property names, contributions
appear in input order, every other segment is dropped, and the using clause
is present exactly when at least one preceding segment contributes. -/
theorem generateKeystrokeScript_matches_amended_spec (ps : ProtoStrings)
    (shortcut : String) (hc : ps.constructorStr ≠ "")
    (hp : ps.protoStr ≠ "") :
    generateKeystrokeScript ps shortcut = keystrokeSpecAmended ps shortcut := by
  simp only [generateKeystrokeScript, keystrokeSpecAmended]
  apply if_congr _ rfl rfl
  constructor
  · intro h
    by_contra hne
    obtain ⟨x, xs, hm⟩ := List.exists_cons_of_ne_nil hne
    have hmem : x ∈ (jsSplit '+' (jsToLower shortcut)).dropLast.filterMap
        (modifierMap ps) := by
      rw [hm]
      exact List.mem_cons_self x xs
    obtain ⟨m, _, hsome⟩ := List.mem_filterMap.mp hmem
    rw [hm] at h
    exact intercalate_cons_ne_empty ", " x xs
      (modifierMap_ne_empty ps hc hp m x hsome) h
  · intro h
    rw [h]
    rfl

/-- Witness for amended claim C10 at the Node string forms and a shortcut
mixing a recognized modifier, an inherited name and an unrecognized
segment. -/
theorem generateKeystrokeScript_matches_amended_spec_witness :
    generateKeystrokeScript nodeProtoStrings "constructor+cmd+foo+a" =
      keystrokeSpecAmended nodeProtoStrings "constructor+cmd+foo+a" :=
  generateKeystrokeScript_matches_amended_spec nodeProtoStrings
    "constructor+cmd+foo+a" (by decide) (by decide)

end Zoomer
